import Mathlib

/-
Verification of the Nrityalya camera-capture widget
(src/components/UploadImage.tsx, component GestureRecognition).

The component is embedded shallowly: React state is a record, browser
refs and network outcomes are explicit environment fields, and each
handler is a pure function returning its updated state together with a
trace of the observable effects it performs (canvas draws, blob
encodings, HTTP requests, JSON parses, console logs, setState calls).
-/

namespace Nrityalya

/-- The `mode` state: `useState<"hand" | "body">("hand")`. -/
inductive Mode
  | hand
  | body
deriving DecidableEq, Repr

/-- The React state of `GestureRecognition`:
`prediction`, `isCameraOn`, `mode`. -/
structure ComponentState where
  prediction : String
  isCameraOn : Bool
  mode : Mode
deriving DecidableEq, Repr

/-- One entry appended to the multipart `FormData` body:
`formData.append(field, blob, filename)`. -/
structure FormEntry where
  field : String
  filename : String
deriving DecidableEq, Repr

/-- An HTTP request as issued by `fetch(endpoint, { method, body })`.
The code passes no `headers` option and no credentials, so the embedded
request records the header list explicitly (empty for this component)
and the multipart body entries. -/
structure Request where
  url : String
  method : String
  headers : List (String × String)
  formBody : List FormEntry
deriving DecidableEq, Repr

/-- Observable effects performed by the component's handlers, in
program order. -/
inductive Effect
  | drawImage
  | toBlobCall (mime : String)
  | postRequest (req : Request)
  | parseJson
  | consoleError (msg : String)
  | setPrediction (value : String)
  | getUserMediaCall
  | scheduleSrcObjectAttach
  | stopTrack (id : Nat)
deriving DecidableEq, Repr

/-- The parsed JSON body of a prediction response.  Each field is
`none` when absent; a present empty string is falsy in JavaScript,
which `truthy` accounts for. -/
structure PredData where
  hand_gesture : Option String
  body_pose : Option String
deriving DecidableEq, Repr

/-- JavaScript truthiness of an optional string field:
absent and `""` are falsy, any other string is truthy. -/
def truthy : Option String → Bool
  | none => false
  | some s => !s.isEmpty

/-- Environment for one invocation of `captureAndSendFrame`:
whether each nullable resource is present, whether `fetch` resolves,
and the outcome of `response.json()` (`none` when parsing throws). -/
structure CaptureEnv where
  videoPresent : Bool
  canvasPresent : Bool
  contextPresent : Bool
  blobPresent : Bool
  fetchOk : Bool
  jsonResult : Option PredData
deriving Repr

/-- The endpoint chosen by the ternary on `mode`. -/
def endpointFor : Mode → String
  | Mode.hand => "http://localhost:8000/predict/hand/"
  | Mode.body => "http://localhost:8000/predict/body/"

/-- The request built by `captureAndSendFrame`: a POST of the single
form entry `("file", blob, "frame.jpg")` with no headers. -/
def frameRequest (mode : Mode) : Request :=
  { url := endpointFor mode
    method := "POST"
    headers := []
    formBody := [{ field := "file", filename := "frame.jpg" }] }

/-- The `setPrediction` calls made after a successful JSON parse:
`if (data.hand_gesture) setPrediction(data.hand_gesture);`
`if (data.body_pose) setPrediction(data.body_pose);`. -/
def predictionUpdates (data : PredData) : List Effect :=
  (if truthy data.hand_gesture then
    [Effect.setPrediction (data.hand_gesture.getD "")] else []) ++
  (if truthy data.body_pose then
    [Effect.setPrediction (data.body_pose.getD "")] else [])

/-- Trace semantics of `captureAndSendFrame`.  Early returns on a null
video ref, canvas ref, 2d context, or blob; otherwise draw, encode as
`image/jpeg`, POST, and handle the response, with the `try`/`catch`
logging fetch and parse failures. -/
def captureAndSendFrame (mode : Mode) (env : CaptureEnv) : List Effect :=
  if !env.videoPresent || !env.canvasPresent then []
  else if !env.contextPresent then []
  else
    Effect.drawImage ::
    Effect.toBlobCall "image/jpeg" ::
    (if env.blobPresent then
      Effect.postRequest (frameRequest mode) ::
      (if env.fetchOk then
        Effect.parseJson ::
        (match env.jsonResult with
         | some data => predictionUpdates data
         | none => [Effect.consoleError "Error fetching prediction:"])
      else [Effect.consoleError "Error fetching prediction:"])
    else [])

/-- State transition of a single effect: only `setPrediction` changes
the component state. -/
def applyEffect (s : ComponentState) (e : Effect) : ComponentState :=
  match e with
  | Effect.setPrediction v => { s with prediction := v }
  | _ => s

/-- Fold a trace of effects over the component state. -/
def applyEffects (es : List Effect) (s : ComponentState) : ComponentState :=
  es.foldl applyEffect s

/-- `startCamera`: awaits `getUserMedia({ video: true })`; on success
schedules the `srcObject` attachment and sets `isCameraOn` to true,
on failure logs the error and leaves the state unchanged. -/
def startCamera (getUserMediaOk : Bool) (s : ComponentState) :
    ComponentState × List Effect :=
  if getUserMediaOk then
    ({ s with isCameraOn := true },
     [Effect.getUserMediaCall, Effect.scheduleSrcObjectAttach])
  else
    (s, [Effect.getUserMediaCall, Effect.consoleError "Error accessing webcam:"])

/-- A `MediaStream`, identified by the ids of its tracks. -/
structure MediaStream where
  tracks : List Nat
deriving DecidableEq, Repr

/-- The video element as seen through `videoRef.current`: only its
`srcObject` matters to `closeCamera`. -/
structure VideoElement where
  srcObject : Option MediaStream
deriving DecidableEq, Repr

/-- `closeCamera`: if the video ref and its `srcObject` are present,
stop every track and null out `srcObject`; in every case set
`isCameraOn` to false.  Returns the updated ref, state, and trace. -/
def closeCamera (videoRef : Option VideoElement) (s : ComponentState) :
    Option VideoElement × ComponentState × List Effect :=
  match videoRef with
  | some v =>
    match v.srcObject with
    | some stream =>
        (some { v with srcObject := none },
         { s with isCameraOn := false },
         stream.tracks.map Effect.stopTrack)
    | none => (some v, { s with isCameraOn := false }, [])
  | none => (none, { s with isCameraOn := false }, [])

/-- What the interval effect schedules. -/
inductive ScheduledCallback
  | captureFrameCb
deriving DecidableEq, Repr

/-- Running a scheduled callback: the interval's callback is
`captureAndSendFrame` itself. -/
def runScheduled : ScheduledCallback → Mode → CaptureEnv → List Effect
  | ScheduledCallback.captureFrameCb => captureAndSendFrame

/-- A live `setInterval` handle: the scheduled callback, its period in
milliseconds, and that it repeats. -/
structure IntervalHandle where
  callback : ScheduledCallback
  periodMs : Nat
  repeating : Bool
deriving DecidableEq, Repr

/-- Setup phase of the interval `useEffect`: when `isCameraOn` is true
it calls `setInterval(captureAndSendFrame, 1000)`, otherwise it
schedules nothing. -/
def intervalEffectSetup (isCameraOn : Bool) : Option IntervalHandle :=
  if isCameraOn then
    some { callback := ScheduledCallback.captureFrameCb
           periodMs := 1000
           repeating := true }
  else none

/-- Cleanup phase of the interval `useEffect` (run on dependency change
and on unmount): `clearInterval(interval)` leaves nothing scheduled. -/
def intervalEffectCleanup (_ : Option IntervalHandle) : Option IntervalHandle :=
  none

/-- The upload loop as the browser sees it: a count of requests still
in flight next to the component state.  `captureAndSendFrame` never
inspects or bounds this count. -/
structure LoopState where
  pending : Nat
  comp : ComponentState
deriving DecidableEq, Repr

/-- One firing of the 1000 ms interval: when the camera is on, a new
capture-and-POST is launched unconditionally, growing the in-flight
count; the code consults nothing else. -/
def timerTick (ls : LoopState) : LoopState :=
  if ls.comp.isCameraOn then { ls with pending := ls.pending + 1 } else ls

/-- Completion of one in-flight request with parsed body `data`: its
`setPrediction` calls are applied to whatever the state is at that
moment. -/
def completeResponse (data : PredData) (ls : LoopState) : LoopState :=
  { pending := ls.pending - 1
    comp := applyEffects (predictionUpdates data) ls.comp }

/-- The rendered label: `{prediction || "N/A"}`. -/
def renderedPrediction (prediction : String) : String :=
  if prediction.isEmpty then "N/A" else prediction

/-- A trace without `setPrediction` effects leaves the state fixed. -/
theorem applyEffects_eq_of_no_setPrediction (es : List Effect) (s : ComponentState)
    (h : ∀ v, Effect.setPrediction v ∉ es) : applyEffects es s = s := by
  induction es generalizing s with
  | nil => rfl
  | cons e es ih =>
    have he : ∀ v, e ≠ Effect.setPrediction v := by
      intro v hv
      exact h v (hv ▸ List.mem_cons_self e es)
    have hes : ∀ v, Effect.setPrediction v ∉ es := by
      intro v hv
      exact h v (List.mem_cons_of_mem e hv)
    have : applyEffect s e = s := by
      cases e <;> first
        | rfl
        | exact absurd rfl (he _)
    simpa [applyEffects, List.foldl_cons, this] using ih s hes

/-- Any POST effect appearing in a `captureAndSendFrame` trace carries
exactly the request built from the current mode. -/
theorem postRequest_mem_frameRequest (mode : Mode) (env : CaptureEnv) (req : Request)
    (h : Effect.postRequest req ∈ captureAndSendFrame mode env) :
    req = frameRequest mode := by
  rcases env with ⟨vp, cp, xp, bp, fo, jr⟩
  cases vp <;> cases cp <;> cases xp <;> cases bp <;> cases fo <;>
    rcases jr with _ | data <;>
    simp [captureAndSendFrame, predictionUpdates] at h <;>
    try assumption

/-- Applying the post-parse `setPrediction` calls: `body_pose` wins
when both fields are truthy, the old prediction survives when neither
is. -/
theorem applyEffects_predictionUpdates (data : PredData) (s : ComponentState) :
    applyEffects (predictionUpdates data) s =
      { s with prediction :=
          if truthy data.body_pose then data.body_pose.getD ""
          else if truthy data.hand_gesture then data.hand_gesture.getD ""
          else s.prediction } := by
  rcases data with ⟨hg, bp⟩
  cases htg : truthy hg <;> cases htb : truthy bp <;>
    simp [predictionUpdates, applyEffects, applyEffect, htg, htb]

/-- Claim C1: while `isCameraOn` is true the effect schedules a
repeating 1000 ms interval whose callback is `captureAndSendFrame`;
when `isCameraOn` is false nothing is scheduled, and the cleanup run on
dependency change or unmount always clears the interval. -/
theorem c1_interval_lifecycle :
    intervalEffectSetup true =
      some { callback := ScheduledCallback.captureFrameCb
             periodMs := 1000
             repeating := true } ∧
    (∀ mode env, runScheduled ScheduledCallback.captureFrameCb mode env =
      captureAndSendFrame mode env) ∧
    intervalEffectSetup false = none ∧
    ∀ handle, intervalEffectCleanup handle = none :=
  ⟨rfl, fun _ _ => rfl, rfl, fun _ => rfl⟩

/-- Claim C2: with the video ref, canvas ref, 2d context and blob all
present and the response parsing, the trace is exactly: draw the frame,
encode as `image/jpeg`, POST the form entry `"file"`/`"frame.jpg"` to
the mode's endpoint, parse the JSON body, then the resulting
`setPrediction` calls. -/
theorem c2_capture_sequence (mode : Mode) (env : CaptureEnv) (data : PredData)
    (hv : env.videoPresent = true) (hc : env.canvasPresent = true)
    (hx : env.contextPresent = true) (hb : env.blobPresent = true)
    (hf : env.fetchOk = true) (hj : env.jsonResult = some data) :
    captureAndSendFrame mode env =
      [Effect.drawImage,
       Effect.toBlobCall "image/jpeg",
       Effect.postRequest
         { url := endpointFor mode
           method := "POST"
           headers := []
           formBody := [{ field := "file", filename := "frame.jpg" }] },
       Effect.parseJson] ++ predictionUpdates data := by
  rcases env with ⟨vp, cp, xp, bp, fo, jr⟩
  simp_all [captureAndSendFrame, frameRequest]

/-- Concrete instance of the C2 sequence theorem. -/
theorem c2_capture_sequence_witness :
    ((⟨true, true, true, true, true,
        some ⟨some "namaste", none⟩⟩ : CaptureEnv).videoPresent = true ∧
     (⟨true, true, true, true, true,
        some ⟨some "namaste", none⟩⟩ : CaptureEnv).fetchOk = true) ∧
    captureAndSendFrame Mode.hand
        ⟨true, true, true, true, true, some ⟨some "namaste", none⟩⟩ =
      [Effect.drawImage,
       Effect.toBlobCall "image/jpeg",
       Effect.postRequest
         { url := endpointFor Mode.hand
           method := "POST"
           headers := []
           formBody := [{ field := "file", filename := "frame.jpg" }] },
       Effect.parseJson] ++ predictionUpdates ⟨some "namaste", none⟩ :=
  ⟨⟨rfl, rfl⟩,
   c2_capture_sequence Mode.hand
     ⟨true, true, true, true, true, some ⟨some "namaste", none⟩⟩
     ⟨some "namaste", none⟩ rfl rfl rfl rfl rfl rfl⟩

/-- Claim C3: when the fetch rejects or the JSON parse throws on a
sent frame, the only effect is the console log: the component state is
unchanged, no `setPrediction` happens, exactly one POST was issued (no
retry), and the trace ends with the error log. -/
theorem c3_failure_only_logs (mode : Mode) (env : CaptureEnv) (s : ComponentState)
    (hv : env.videoPresent = true) (hc : env.canvasPresent = true)
    (hx : env.contextPresent = true) (hb : env.blobPresent = true)
    (hfail : env.fetchOk = false ∨ env.jsonResult = none) :
    applyEffects (captureAndSendFrame mode env) s = s ∧
    (∀ v, Effect.setPrediction v ∉ captureAndSendFrame mode env) ∧
    (captureAndSendFrame mode env).count (Effect.postRequest (frameRequest mode)) = 1 ∧
    (captureAndSendFrame mode env).getLast? =
      some (Effect.consoleError "Error fetching prediction:") := by
  rcases env with ⟨vp, cp, xp, bp, fo, jr⟩
  cases fo <;> rcases jr with _ | data <;>
    simp_all [captureAndSendFrame, frameRequest, applyEffects, applyEffect,
      List.count_cons, List.getLast?]

/-- Concrete instance of the C3 failure theorem. -/
theorem c3_failure_only_logs_witness :
    ((⟨true, true, true, true, false, none⟩ : CaptureEnv).videoPresent = true ∧
     ((⟨true, true, true, true, false, none⟩ : CaptureEnv).fetchOk = false ∨
      (⟨true, true, true, true, false, none⟩ : CaptureEnv).jsonResult = none)) ∧
    (applyEffects (captureAndSendFrame Mode.body ⟨true, true, true, true, false, none⟩)
        ⟨"old", true, Mode.body⟩ = ⟨"old", true, Mode.body⟩ ∧
     (∀ v, Effect.setPrediction v ∉
        captureAndSendFrame Mode.body ⟨true, true, true, true, false, none⟩) ∧
     (captureAndSendFrame Mode.body ⟨true, true, true, true, false, none⟩).count
        (Effect.postRequest (frameRequest Mode.body)) = 1 ∧
     (captureAndSendFrame Mode.body ⟨true, true, true, true, false, none⟩).getLast? =
        some (Effect.consoleError "Error fetching prediction:")) :=
  ⟨⟨rfl, Or.inl rfl⟩,
   c3_failure_only_logs Mode.body ⟨true, true, true, true, false, none⟩
     ⟨"old", true, Mode.body⟩ rfl rfl rfl rfl (Or.inl rfl)⟩

/-- Claim C4: after a successfully parsed response, the prediction
state becomes `body_pose` when that field is truthy, else
`hand_gesture` when that field is truthy, else it is unchanged;
`isCameraOn` and `mode` are untouched; and the UI renders the
prediction string with `"N/A"` as fallback exactly when it is empty. -/
theorem c4_prediction_update (mode : Mode) (env : CaptureEnv) (s : ComponentState)
    (data : PredData)
    (hv : env.videoPresent = true) (hc : env.canvasPresent = true)
    (hx : env.contextPresent = true) (hb : env.blobPresent = true)
    (hf : env.fetchOk = true) (hj : env.jsonResult = some data) :
    applyEffects (captureAndSendFrame mode env) s =
      { s with prediction :=
          if truthy data.body_pose then data.body_pose.getD ""
          else if truthy data.hand_gesture then data.hand_gesture.getD ""
          else s.prediction } ∧
    (∀ p : String, (p = "" ∧ renderedPrediction p = "N/A") ∨
      (p ≠ "" ∧ renderedPrediction p = p)) := by
  constructor
  · rcases env with ⟨vp, cp, xp, bp, fo, jr⟩
    simp_all [captureAndSendFrame, frameRequest, applyEffects, applyEffect]
    have := applyEffects_predictionUpdates data s
    simpa [applyEffects] using this
  · intro p
    by_cases hp : p = ""
    · exact Or.inl ⟨hp, by simp [renderedPrediction, hp, String.isEmpty_iff]⟩
    · exact Or.inr ⟨hp, by simp [renderedPrediction, String.isEmpty_iff, hp]⟩

/-- Concrete instance of the C4 update theorem. -/
theorem c4_prediction_update_witness :
    ((⟨true, true, true, true, true,
        some ⟨some "mudra", some "tribhanga"⟩⟩ : CaptureEnv).fetchOk = true ∧
     (⟨true, true, true, true, true,
        some ⟨some "mudra", some "tribhanga"⟩⟩ : CaptureEnv).jsonResult =
       some ⟨some "mudra", some "tribhanga"⟩) ∧
    (applyEffects
        (captureAndSendFrame Mode.body
          ⟨true, true, true, true, true, some ⟨some "mudra", some "tribhanga"⟩⟩)
        ⟨"old", true, Mode.body⟩ =
      { prediction :=
          if truthy (some "tribhanga") then (some "tribhanga").getD ""
          else if truthy (some "mudra") then (some "mudra").getD ""
          else "old"
        isCameraOn := true
        mode := Mode.body } ∧
     (∀ p : String, (p = "" ∧ renderedPrediction p = "N/A") ∨
       (p ≠ "" ∧ renderedPrediction p = p))) :=
  ⟨⟨rfl, rfl⟩,
   c4_prediction_update Mode.body
     ⟨true, true, true, true, true, some ⟨some "mudra", some "tribhanga"⟩⟩
     ⟨"old", true, Mode.body⟩ ⟨some "mudra", some "tribhanga"⟩
     rfl rfl rfl rfl rfl rfl⟩

/-- Claim C5: every POST issued by `captureAndSendFrame` goes to the
endpoint determined by the current mode alone. -/
theorem c5_endpoint_selection (mode : Mode) (env : CaptureEnv) (req : Request)
    (h : Effect.postRequest req ∈ captureAndSendFrame mode env) :
    req.url = match mode with
      | Mode.hand => "http://localhost:8000/predict/hand/"
      | Mode.body => "http://localhost:8000/predict/body/" := by
  have hreq := postRequest_mem_frameRequest mode env req h
  subst hreq
  cases mode <;> rfl

/-- Concrete instance of the C5 endpoint theorem. -/
theorem c5_endpoint_selection_witness :
    Effect.postRequest (frameRequest Mode.hand) ∈
      captureAndSendFrame Mode.hand
        ⟨true, true, true, true, true, some ⟨some "namaste", none⟩⟩ ∧
    (frameRequest Mode.hand).url = "http://localhost:8000/predict/hand/" :=
  ⟨by decide,
   c5_endpoint_selection Mode.hand
     ⟨true, true, true, true, true, some ⟨some "namaste", none⟩⟩
     (frameRequest Mode.hand) (by decide)⟩

/-- Claim C6: `startCamera` sets `isCameraOn` only when `getUserMedia`
resolves; on failure it logs the error and leaves the whole component
state unchanged. -/
theorem c6_startCamera_behavior (s : ComponentState) :
    startCamera false s =
      (s, [Effect.getUserMediaCall, Effect.consoleError "Error accessing webcam:"]) ∧
    (startCamera true s).1 = { s with isCameraOn := true } ∧
    ∀ ok : Bool, ((startCamera ok s).1).isCameraOn = (ok || s.isCameraOn) := by
  refine ⟨rfl, rfl, fun ok => ?_⟩
  cases ok <;> simp [startCamera]

/-- Claim C7: every request sent by the widget is a POST carrying only
the single multipart entry for the frame, with no headers and hence no
credentials or tokens. -/
theorem c7_no_auth_headers (mode : Mode) (env : CaptureEnv) (req : Request)
    (h : Effect.postRequest req ∈ captureAndSendFrame mode env) :
    req.method = "POST" ∧ req.headers = [] ∧
    req.formBody = [{ field := "file", filename := "frame.jpg" }] := by
  have hreq := postRequest_mem_frameRequest mode env req h
  subst hreq
  exact ⟨rfl, rfl, rfl⟩

/-- Concrete instance of the C7 request-shape theorem. -/
theorem c7_no_auth_headers_witness :
    Effect.postRequest (frameRequest Mode.body) ∈
      captureAndSendFrame Mode.body ⟨true, true, true, true, false, none⟩ ∧
    ((frameRequest Mode.body).method = "POST" ∧
     (frameRequest Mode.body).headers = [] ∧
     (frameRequest Mode.body).formBody = [{ field := "file", filename := "frame.jpg" }]) :=
  ⟨by decide,
   c7_no_auth_headers Mode.body ⟨true, true, true, true, false, none⟩
     (frameRequest Mode.body) (by decide)⟩

/-- Claim C8: the timer launches a new capture on every tick with the
camera on, whatever the number of in-flight requests, and two responses
completing in different orders can leave different final predictions:
there is no coordination between concurrent requests. -/
theorem c8_no_backpressure (ls : LoopState) (h : ls.comp.isCameraOn = true) :
    (timerTick ls).pending = ls.pending + 1 ∧
    ∃ (d1 d2 : PredData) (start : LoopState),
      (completeResponse d2 (completeResponse d1 start)).comp.prediction ≠
      (completeResponse d1 (completeResponse d2 start)).comp.prediction := by
  refine ⟨by simp [timerTick, h], ?_⟩
  exact ⟨⟨some "A", none⟩, ⟨some "B", none⟩, ⟨0, ⟨"", true, Mode.hand⟩⟩, by decide⟩

/-- Concrete instance of the C8 no-backpressure theorem. -/
theorem c8_no_backpressure_witness :
    (⟨3, ⟨"", true, Mode.hand⟩⟩ : LoopState).comp.isCameraOn = true ∧
    ((timerTick ⟨3, ⟨"", true, Mode.hand⟩⟩).pending = 3 + 1 ∧
     ∃ (d1 d2 : PredData) (start : LoopState),
       (completeResponse d2 (completeResponse d1 start)).comp.prediction ≠
       (completeResponse d1 (completeResponse d2 start)).comp.prediction) :=
  ⟨rfl, c8_no_backpressure ⟨3, ⟨"", true, Mode.hand⟩⟩ rfl⟩

/-- Claim C9: after `closeCamera`, `isCameraOn` is false; with a stream
attached, every track is stopped and `srcObject` is nulled; and running
`closeCamera` again on its own output changes nothing and stops no
track, so the call is idempotent. -/
theorem c9_closeCamera_idempotent (v : Option VideoElement) (s : ComponentState) :
    ((closeCamera v s).2.1).isCameraOn = false ∧
    (∀ stream : MediaStream,
      closeCamera (some { srcObject := some stream }) s =
        (some { srcObject := none }, { s with isCameraOn := false },
         stream.tracks.map Effect.stopTrack)) ∧
    closeCamera (closeCamera v s).1 (closeCamera v s).2.1 =
      ((closeCamera v s).1, (closeCamera v s).2.1, []) := by
  refine ⟨?_, fun stream => rfl, ?_⟩
  · rcases v with _ | ⟨_ | stream⟩ <;> rfl
  · rcases v with _ | ⟨_ | stream⟩ <;> simp [closeCamera]

/-- Claim C10: with any of the video ref, canvas ref, 2d context or
blob missing, `captureAndSendFrame` performs no network request and
leaves the component state unchanged. -/
theorem c10_null_guard_safety (mode : Mode) (env : CaptureEnv) (s : ComponentState)
    (h : env.videoPresent = false ∨ env.canvasPresent = false ∨
         env.contextPresent = false ∨ env.blobPresent = false) :
    (∀ req, Effect.postRequest req ∉ captureAndSendFrame mode env) ∧
    applyEffects (captureAndSendFrame mode env) s = s := by
  rcases env with ⟨vp, cp, xp, bp, fo, jr⟩
  cases vp <;> cases cp <;> cases xp <;> cases bp <;>
    simp_all [captureAndSendFrame, applyEffects, applyEffect]

/-- Concrete instance of the C10 guard theorem. -/
theorem c10_null_guard_safety_witness :
    ((⟨false, true, true, true, true, none⟩ : CaptureEnv).videoPresent = false ∨
     (⟨false, true, true, true, true, none⟩ : CaptureEnv).canvasPresent = false ∨
     (⟨false, true, true, true, true, none⟩ : CaptureEnv).contextPresent = false ∨
     (⟨false, true, true, true, true, none⟩ : CaptureEnv).blobPresent = false) ∧
    ((∀ req, Effect.postRequest req ∉
        captureAndSendFrame Mode.hand ⟨false, true, true, true, true, none⟩) ∧
     applyEffects (captureAndSendFrame Mode.hand ⟨false, true, true, true, true, none⟩)
        ⟨"x", true, Mode.hand⟩ = ⟨"x", true, Mode.hand⟩) :=
  ⟨Or.inl rfl,
   c10_null_guard_safety Mode.hand ⟨false, true, true, true, true, none⟩
     ⟨"x", true, Mode.hand⟩ (Or.inl rfl)⟩

end Nrityalya
